import Mathlib

/-!
Shallow embedding of `src/src/common/ml_document/mesh_model.cpp` (class
`MeshModel` of MeshLab) and proofs about its data-mask bookkeeping and
texture-map operations.

The data mask is a C++ `int` used as a bit-flag set; it is modelled as a
`Nat` holding a 32-bit value, with `|||`/`&&&` for the C++ `|`/`&` and
`not32` for 32-bit `~`.  The underlying vcg mesh `CMeshO` is modelled by
the fields this file reads and writes: the per-vertex and per-face
optional-buffer enable flags, the transform, the selection counters and
the texture-name list.  Qt types are modelled abstractly (`QImage` as a
small inductive, `std::map<std::string, QImage>` as an association list
with unique keys, filesystem and path resolution as an explicit
environment of functions).
-/

/-- Modelled from the spec: the `MM_*` attribute bit constants declared in
`mesh_model.h` (not under `src/`); the spec describes the data mask as "a
bit-flag set", so each constant is a distinct bit. `MM_NONE` is the empty
set. -/
def MM_NONE : Nat := 0

/-- Modelled from the spec: vertex coordinate bit. -/
def MM_VERTCOORD : Nat := 2 ^ 0

/-- Modelled from the spec: vertex normal bit. -/
def MM_VERTNORMAL : Nat := 2 ^ 1

/-- Modelled from the spec: vertex flag bit. -/
def MM_VERTFLAG : Nat := 2 ^ 2

/-- Modelled from the spec: vertex color bit. -/
def MM_VERTCOLOR : Nat := 2 ^ 3

/-- Modelled from the spec: vertex quality bit. -/
def MM_VERTQUALITY : Nat := 2 ^ 4

/-- Modelled from the spec: vertex mark bit. -/
def MM_VERTMARK : Nat := 2 ^ 5

/-- Modelled from the spec: vertex-face topology bit. -/
def MM_VERTFACETOPO : Nat := 2 ^ 6

/-- Modelled from the spec: vertex curvature bit. -/
def MM_VERTCURV : Nat := 2 ^ 7

/-- Modelled from the spec: vertex curvature-direction bit. -/
def MM_VERTCURVDIR : Nat := 2 ^ 8

/-- Modelled from the spec: vertex radius bit. -/
def MM_VERTRADIUS : Nat := 2 ^ 9

/-- Modelled from the spec: vertex texture-coordinate bit. -/
def MM_VERTTEXCOORD : Nat := 2 ^ 10

/-- Modelled from the spec: face vertex-index bit. -/
def MM_FACEVERT : Nat := 2 ^ 12

/-- Modelled from the spec: face normal bit. -/
def MM_FACENORMAL : Nat := 2 ^ 13

/-- Modelled from the spec: face flag bit. -/
def MM_FACEFLAG : Nat := 2 ^ 14

/-- Modelled from the spec: face color bit. -/
def MM_FACECOLOR : Nat := 2 ^ 15

/-- Modelled from the spec: face quality bit. -/
def MM_FACEQUALITY : Nat := 2 ^ 16

/-- Modelled from the spec: face mark bit. -/
def MM_FACEMARK : Nat := 2 ^ 17

/-- Modelled from the spec: face-face topology bit. -/
def MM_FACEFACETOPO : Nat := 2 ^ 18

/-- Modelled from the spec: face curvature-direction bit. -/
def MM_FACECURVDIR : Nat := 2 ^ 19

/-- Modelled from the spec: wedge texture-coordinate bit. -/
def MM_WEDGTEXCOORD : Nat := 2 ^ 21

/-- Modelled from the spec: wedge normal bit. -/
def MM_WEDGNORMAL : Nat := 2 ^ 22

/-- Modelled from the spec: wedge color bit. -/
def MM_WEDGCOLOR : Nat := 2 ^ 23

/-- Modelled from the spec: camera bit. -/
def MM_CAMERA : Nat := 2 ^ 27

/-- Modelled from the spec: polygonal bit. -/
def MM_POLYGONAL : Nat := 2 ^ 28

/-- Modelled from the spec: the `tri::io::Mask::IOM_*` import/export bit
constants of the companion geometry library (not under `src/`); they form
a bit-flag set, so each nonzero constant is a distinct bit and `IOM_NONE`
is zero. -/
def IOM_NONE : Nat := 0

/-- Modelled from the spec: IO vertex coordinate bit. -/
def IOM_VERTCOORD : Nat := 2 ^ 0

/-- Modelled from the spec: IO vertex flags bit. -/
def IOM_VERTFLAGS : Nat := 2 ^ 1

/-- Modelled from the spec: IO vertex color bit. -/
def IOM_VERTCOLOR : Nat := 2 ^ 2

/-- Modelled from the spec: IO vertex quality bit. -/
def IOM_VERTQUALITY : Nat := 2 ^ 3

/-- Modelled from the spec: IO vertex normal bit. -/
def IOM_VERTNORMAL : Nat := 2 ^ 4

/-- Modelled from the spec: IO vertex texture-coordinate bit. -/
def IOM_VERTTEXCOORD : Nat := 2 ^ 5

/-- Modelled from the spec: IO face index bit. -/
def IOM_FACEINDEX : Nat := 2 ^ 6

/-- Modelled from the spec: IO face flags bit. -/
def IOM_FACEFLAGS : Nat := 2 ^ 7

/-- Modelled from the spec: IO face color bit. -/
def IOM_FACECOLOR : Nat := 2 ^ 8

/-- Modelled from the spec: IO face quality bit. -/
def IOM_FACEQUALITY : Nat := 2 ^ 9

/-- Modelled from the spec: IO face normal bit. -/
def IOM_FACENORMAL : Nat := 2 ^ 10

/-- Modelled from the spec: IO wedge color bit. -/
def IOM_WEDGCOLOR : Nat := 2 ^ 11

/-- Modelled from the spec: IO wedge texture-coordinate bit. -/
def IOM_WEDGTEXCOORD : Nat := 2 ^ 12

/-- Modelled from the spec: IO wedge normal bit. -/
def IOM_WEDGNORMAL : Nat := 2 ^ 14

/-- Modelled from the spec: IO camera bit. -/
def IOM_CAMERA : Nat := 2 ^ 15

/-- Modelled from the spec: IO polygonal bit. -/
def IOM_BITPOLYGONAL : Nat := 2 ^ 17

/-- Modelled from the spec: IO vertex radius bit. -/
def IOM_VERTRADIUS : Nat := 2 ^ 28

/-- Nonzero test of a bitwise AND, the idiom `(x & b) != 0` used throughout
the C++ file for guard conditions. -/
def hasBitB (x b : Nat) : Bool := x &&& b != 0

/-- Bitwise complement of the low 32 bits, the value of C++ `~n` on a
32-bit `int` mask (masks are nonnegative and below `2^32`). -/
def not32 (n : Nat) : Nat := 4294967295 ^^^ (n % 4294967296)

/-- Abstract model of Qt `QImage`: the default-constructed null image, the
dummy resource image `":/img/dummy.png"`, and loaded images distinguished
by an abstract identifier. -/
inductive QImage where
  | nullImage : QImage
  | dummy : QImage
  | img (n : Nat) : QImage
deriving DecidableEq, Repr

/-- Lookup in an association list, modelling `std::map::find` on
`std::map<std::string, QImage>` (keys are unique in a `std::map`). -/
def mapFind? (k : String) : List (String × QImage) → Option QImage
  | [] => none
  | (a, b) :: t => if a = k then some b else mapFind? k t

/-- Insert-or-assign, modelling `std::map::operator[] =` followed by
assignment: replaces the value at an existing key, otherwise adds the
binding. -/
def mapInsert (k : String) (v : QImage) : List (String × QImage) → List (String × QImage)
  | [] => [(k, v)]
  | (a, b) :: t => if a = k then (a, v) :: t else (a, b) :: mapInsert k v t

/-- Erase by key, modelling `std::map::erase` of the node found for that
key (removes the first matching entry; keys are unique in a `std::map`). -/
def mapErase (k : String) : List (String × QImage) → List (String × QImage)
  | [] => []
  | (a, b) :: t => if a = k then t else (a, b) :: mapErase k t

/-- Assignment through a found iterator (`it->second = txt`): replaces the
value at the first entry with the given key, leaves the list unchanged
otherwise. -/
def mapAssign (k : String) (v : QImage) : List (String × QImage) → List (String × QImage)
  | [] => []
  | (a, b) :: t => if a = k then (a, v) :: t else (a, b) :: mapAssign k v t

/-- Replacement of the first list entry equal to `o` by `n`, modelling
`*tit = newName` after `std::find` over `cm.textures`. -/
def replaceFirst (o n : String) : List String → List String
  | [] => []
  | a :: t => if a = o then n :: t else a :: replaceFirst o n t

/-- The 4x4 transform matrix `cm.Tr` (vcg `Matrix44`). -/
structure Matrix44 where
  entry : Fin 4 → Fin 4 → Int

/-- The identity matrix produced by `cm.Tr.SetIdentity()`. -/
def identity44 : Matrix44 :=
  ⟨fun i j => if i = j then 1 else 0⟩

/-- Per-vertex optional-buffer enable flags of the vcg vertex container
(the `cm.vert.Is...Enabled` / `Enable...` / `Disable...` state read and
written by `mesh_model.cpp`). -/
structure VertContainer where
  vfAdjacency : Bool
  mark : Bool
  texCoord : Bool
  curvatureDir : Bool
  curvature : Bool
  radius : Bool
deriving DecidableEq, Repr

/-- Per-face optional-buffer enable flags of the vcg face container. -/
structure FaceContainer where
  vfAdjacency : Bool
  ffAdjacency : Bool
  wedgeTexCoord : Bool
  color : Bool
  quality : Bool
  curvatureDir : Bool
  mark : Bool
deriving DecidableEq, Repr

/-- The parts of the vcg mesh `CMeshO` that `mesh_model.cpp` reads or
writes: optional-buffer flags, transform `Tr`, selected-face and
selected-vertex counters `sfn`/`svn`, and the texture-name list. -/
structure CMeshO where
  vert : VertContainer
  face : FaceContainer
  Tr : Matrix44
  sfn : Int
  svn : Int
  textures : List String

/-- The `MeshModel` state: the contained mesh, the data mask, the
modification flag, visibility, file path, label, id and the name-to-image
texture map. -/
structure MeshModel where
  cm : CMeshO
  currentDataMask : Nat
  modified : Bool
  visible : Bool
  fullPathFileName : String
  labelName : String
  meshId : Nat
  textures : List (String × QImage)

/-- `MeshModel::hasDataMask`: `(currentDataMask & maskToBeTested) != 0`. -/
def MeshModel.hasDataMask (m : MeshModel) (maskToBeTested : Nat) : Bool :=
  m.currentDataMask &&& maskToBeTested != 0

/-- `MeshModel::hasPerVertexColor`: `currentDataMask & MM_VERTCOLOR`
converted to `bool`. -/
def MeshModel.hasPerVertexColor (m : MeshModel) : Bool :=
  m.currentDataMask &&& MM_VERTCOLOR != 0

/-- `MeshModel::hasPerVertexQuality`. -/
def MeshModel.hasPerVertexQuality (m : MeshModel) : Bool :=
  m.currentDataMask &&& MM_VERTQUALITY != 0

/-- `MeshModel::hasPerVertexTexCoord`. -/
def MeshModel.hasPerVertexTexCoord (m : MeshModel) : Bool :=
  m.currentDataMask &&& MM_VERTTEXCOORD != 0

/-- `MeshModel::hasPerFaceColor`. -/
def MeshModel.hasPerFaceColor (m : MeshModel) : Bool :=
  m.currentDataMask &&& MM_FACECOLOR != 0

/-- `MeshModel::hasPerFaceQuality`. -/
def MeshModel.hasPerFaceQuality (m : MeshModel) : Bool :=
  m.currentDataMask &&& MM_FACEQUALITY != 0

/-- `MeshModel::hasPerFaceWedgeTexCoords`. -/
def MeshModel.hasPerFaceWedgeTexCoords (m : MeshModel) : Bool :=
  m.currentDataMask &&& MM_WEDGTEXCOORD != 0

/-- `MeshModel::dataMask`. -/
def MeshModel.dataMask (m : MeshModel) : Nat := m.currentDataMask

/-- `MeshModel::meshModified`. -/
def MeshModel.meshModified (m : MeshModel) : Bool := m.modified

/-- `MeshModel::clear`: resets the modification flag, sets the mask to the
six always-active bits, makes the model visible, sets the transform to the
identity and zeroes the selection counters.  It does not touch the
optional buffers of the contained mesh. -/
def MeshModel.clear (m : MeshModel) : MeshModel :=
  { m with
    modified := false
    currentDataMask :=
      MM_NONE ||| (MM_VERTCOORD ||| MM_VERTNORMAL ||| MM_VERTFLAG) |||
        (MM_FACEVERT ||| MM_FACENORMAL ||| MM_FACEFLAG)
    visible := true
    cm := { m.cm with Tr := identity44, sfn := 0, svn := 0 } }

/-- `MeshModel::updateDataMask()` (no-argument overload): recomputes the
mask from scratch as the eight base bits plus one bit per enabled optional
buffer of the contained mesh; buffers are not modified. -/
def MeshModel.updateDataMaskAuto (m : MeshModel) : MeshModel :=
  { m with
    currentDataMask :=
      MM_NONE |||
      (MM_VERTCOORD ||| MM_VERTNORMAL ||| MM_VERTFLAG |||
        MM_VERTQUALITY ||| MM_VERTCOLOR) |||
      (MM_FACEVERT ||| MM_FACENORMAL ||| MM_FACEFLAG) |||
      (if m.cm.vert.vfAdjacency then MM_VERTFACETOPO else 0) |||
      (if m.cm.vert.mark then MM_VERTMARK else 0) |||
      (if m.cm.vert.texCoord then MM_VERTTEXCOORD else 0) |||
      (if m.cm.vert.curvatureDir then MM_VERTCURVDIR else 0) |||
      (if m.cm.vert.radius then MM_VERTRADIUS else 0) |||
      (if m.cm.face.quality then MM_FACEQUALITY else 0) |||
      (if m.cm.face.mark then MM_FACEMARK else 0) |||
      (if m.cm.face.color then MM_FACECOLOR else 0) |||
      (if m.cm.face.ffAdjacency then MM_FACEFACETOPO else 0) |||
      (if m.cm.face.vfAdjacency then MM_VERTFACETOPO else 0) |||
      (if m.cm.face.curvatureDir then MM_FACECURVDIR else 0) |||
      (if m.cm.face.wedgeTexCoord then MM_WEDGTEXCOORD else 0) }

/-- `MeshModel::updateDataMask(int neededDataMask)`: enables the buffer
behind every optional-attribute bit present in `neededDataMask` (each
C++ `if ((needed & bit) != 0) Enable...()` becomes a conditional set to
`true`) and ORs `neededDataMask` into the mask. -/
def MeshModel.updateDataMask (m : MeshModel) (neededDataMask : Nat) : MeshModel :=
  { m with
    currentDataMask := m.currentDataMask ||| neededDataMask
    cm := { m.cm with
      vert := { m.cm.vert with
        vfAdjacency :=
          if hasBitB neededDataMask MM_VERTFACETOPO then true else m.cm.vert.vfAdjacency
        mark := if hasBitB neededDataMask MM_VERTMARK then true else m.cm.vert.mark
        curvatureDir :=
          if hasBitB neededDataMask MM_VERTCURVDIR then true else m.cm.vert.curvatureDir
        radius := if hasBitB neededDataMask MM_VERTRADIUS then true else m.cm.vert.radius
        texCoord :=
          if hasBitB neededDataMask MM_VERTTEXCOORD then true else m.cm.vert.texCoord }
      face := { m.cm.face with
        ffAdjacency :=
          if hasBitB neededDataMask MM_FACEFACETOPO then true else m.cm.face.ffAdjacency
        vfAdjacency :=
          if hasBitB neededDataMask MM_VERTFACETOPO then true else m.cm.face.vfAdjacency
        wedgeTexCoord :=
          if hasBitB neededDataMask MM_WEDGTEXCOORD then true else m.cm.face.wedgeTexCoord
        color := if hasBitB neededDataMask MM_FACECOLOR then true else m.cm.face.color
        quality := if hasBitB neededDataMask MM_FACEQUALITY then true else m.cm.face.quality
        curvatureDir :=
          if hasBitB neededDataMask MM_FACECURVDIR then true else m.cm.face.curvatureDir
        mark := if hasBitB neededDataMask MM_FACEMARK then true else m.cm.face.mark } } }

/-- `MeshModel::updateDataMask(const MeshModel *m)`: delegates to the
`int` overload with the other model's mask. -/
def MeshModel.updateDataMaskFrom (m other : MeshModel) : MeshModel :=
  m.updateDataMask other.currentDataMask

/-- `MeshModel::clearDataMask(int unneededDataMask)`: disables the buffer
behind every requested bit that is currently set in the mask (each C++
`if ((unneeded & bit) != 0 && hasDataMask(bit)) Disable...()`), then
clears the requested bits: `currentDataMask & ~unneededDataMask`. -/
def MeshModel.clearDataMask (m : MeshModel) (unneededDataMask : Nat) : MeshModel :=
  { m with
    currentDataMask := m.currentDataMask &&& not32 unneededDataMask
    cm := { m.cm with
      vert := { m.cm.vert with
        vfAdjacency :=
          if hasBitB unneededDataMask MM_VERTFACETOPO && m.hasDataMask MM_VERTFACETOPO then
            false else m.cm.vert.vfAdjacency
        mark :=
          if hasBitB unneededDataMask MM_VERTMARK && m.hasDataMask MM_VERTMARK then
            false else m.cm.vert.mark
        curvature :=
          if hasBitB unneededDataMask MM_VERTCURV && m.hasDataMask MM_VERTCURV then
            false else m.cm.vert.curvature
        curvatureDir :=
          if hasBitB unneededDataMask MM_VERTCURVDIR && m.hasDataMask MM_VERTCURVDIR then
            false else m.cm.vert.curvatureDir
        radius :=
          if hasBitB unneededDataMask MM_VERTRADIUS && m.hasDataMask MM_VERTRADIUS then
            false else m.cm.vert.radius
        texCoord :=
          if hasBitB unneededDataMask MM_VERTTEXCOORD && m.hasDataMask MM_VERTTEXCOORD then
            false else m.cm.vert.texCoord }
      face := { m.cm.face with
        vfAdjacency :=
          if hasBitB unneededDataMask MM_VERTFACETOPO && m.hasDataMask MM_VERTFACETOPO then
            false else m.cm.face.vfAdjacency
        ffAdjacency :=
          if hasBitB unneededDataMask MM_FACEFACETOPO && m.hasDataMask MM_FACEFACETOPO then
            false else m.cm.face.ffAdjacency
        wedgeTexCoord :=
          if hasBitB unneededDataMask MM_WEDGTEXCOORD && m.hasDataMask MM_WEDGTEXCOORD then
            false else m.cm.face.wedgeTexCoord
        color :=
          if hasBitB unneededDataMask MM_FACECOLOR && m.hasDataMask MM_FACECOLOR then
            false else m.cm.face.color
        quality :=
          if hasBitB unneededDataMask MM_FACEQUALITY && m.hasDataMask MM_FACEQUALITY then
            false else m.cm.face.quality
        mark :=
          if hasBitB unneededDataMask MM_FACEMARK && m.hasDataMask MM_FACEMARK then
            false else m.cm.face.mark } } }

/-- `MeshModel::enable(int openingFileMask)`: for each handled IO bit of
the opening-file mask, calls `updateDataMask` with the matching MM bit, in
source order. -/
def MeshModel.enable (m : MeshModel) (openingFileMask : Nat) : MeshModel :=
  let m1 := if hasBitB openingFileMask IOM_VERTTEXCOORD then
    m.updateDataMask MM_VERTTEXCOORD else m
  let m2 := if hasBitB openingFileMask IOM_WEDGTEXCOORD then
    m1.updateDataMask MM_WEDGTEXCOORD else m1
  let m3 := if hasBitB openingFileMask IOM_VERTCOLOR then
    m2.updateDataMask MM_VERTCOLOR else m2
  let m4 := if hasBitB openingFileMask IOM_FACECOLOR then
    m3.updateDataMask MM_FACECOLOR else m3
  let m5 := if hasBitB openingFileMask IOM_VERTRADIUS then
    m4.updateDataMask MM_VERTRADIUS else m4
  let m6 := if hasBitB openingFileMask IOM_CAMERA then
    m5.updateDataMask MM_CAMERA else m5
  let m7 := if hasBitB openingFileMask IOM_VERTQUALITY then
    m6.updateDataMask MM_VERTQUALITY else m6
  let m8 := if hasBitB openingFileMask IOM_FACEQUALITY then
    m7.updateDataMask MM_FACEQUALITY else m7
  let m9 := if hasBitB openingFileMask IOM_BITPOLYGONAL then
    m8.updateDataMask MM_POLYGONAL else m8
  m9

/-- A freshly default-constructed `CMeshO`: no optional buffer enabled, no
textures. -/
def emptyCMeshO : CMeshO :=
  { vert := ⟨false, false, false, false, false, false⟩
    face := ⟨false, false, false, false, false, false, false⟩
    Tr := identity44
    sfn := 0
    svn := 0
    textures := [] }

/-- The `MeshModel` constructor: starts from a default-constructed state,
calls `clear()`, stores the id and, when nonempty, the file name and
label. -/
def MeshModel.mkModel (id : Nat) (fullFileName labelName : String) : MeshModel :=
  let base : MeshModel :=
    ({ cm := emptyCMeshO
       currentDataMask := 0
       modified := false
       visible := true
       fullPathFileName := ""
       labelName := ""
       meshId := 0
       textures := [] } : MeshModel).clear
  { base with
    meshId := id
    fullPathFileName := if fullFileName = "" then base.fullPathFileName else fullFileName
    labelName := if labelName = "" then base.labelName else labelName }

/-- The model obtained from the constructor with default arguments; used
as the start state for reachability. -/
def initModel : MeshModel := MeshModel.mkModel 0 "" ""

/-- `MeshModel::getTexture(tn)`: the image stored under `tn`, or the
default-constructed null `QImage` when `tn` is not a key. -/
def MeshModel.getTexture (m : MeshModel) (tn : String) : QImage :=
  match mapFind? tn m.textures with
  | some img => img
  | none => QImage.nullImage

/-- `MeshModel::clearTextures`. -/
def MeshModel.clearTextures (m : MeshModel) : MeshModel :=
  { m with textures := [], cm := { m.cm with textures := [] } }

/-- `MeshModel::addTexture(name, txt)`: only when `name` is not a key of
the map, pushes `name` onto the mesh texture list unless already present
there, and stores the binding. -/
def MeshModel.addTexture (m : MeshModel) (name : String) (txt : QImage) : MeshModel :=
  if (mapFind? name m.textures).isNone then
    { m with
      cm := { m.cm with
        textures :=
          if m.cm.textures.contains name then m.cm.textures
          else m.cm.textures ++ [name] }
      textures := mapInsert name txt m.textures }
  else m

/-- `MeshModel::setTexture(name, txt)`: assigns through the found iterator
when `name` is a key, otherwise does nothing. -/
def MeshModel.setTexture (m : MeshModel) (name : String) (txt : QImage) : MeshModel :=
  if (mapFind? name m.textures).isSome then
    { m with textures := mapAssign name txt m.textures }
  else m

/-- `MeshModel::changeTextureName(oldName, newName)`: when the names
differ and `oldName` is found both in the map and in the mesh texture
list, the list entry is overwritten with `newName`, the image is rebound
to `newName` and the `oldName` binding is erased. -/
def MeshModel.changeTextureName (m : MeshModel) (oldName newName : String) : MeshModel :=
  if oldName ≠ newName then
    match mapFind? oldName m.textures, m.cm.textures.contains oldName with
    | some img, true =>
      { m with
        cm := { m.cm with textures := replaceFirst oldName newName m.cm.textures }
        textures := mapErase oldName (mapInsert newName img m.textures) }
    | _, _ => m
  else m

/-- Environment for `MeshModel::loadTextures`: the image loader
(`meshlab::loadImage`, `none` modelling a thrown `MLException`) and the Qt
path-resolution functions used by the routine (`QFileInfo` members). -/
structure TexEnv where
  loadImage : String → Option QImage
  absoluteFilePath : String → String
  fileName : String → String
  filePath : String → String
  absolutePath : String → String

/-- One iteration of the `loadTextures` loop body for a texture name, over
the current map: returns the (possibly rewritten) stored name, the updated
map, and the name pushed onto the unloaded list when both load attempts
fail.  A name already in the map is skipped. -/
def processTexture (env : TexEnv) (meshPath : String)
    (tmap : List (String × QImage)) (textName : String) :
    String × List (String × QImage) × Option String :=
  if (mapFind? textName tmap).isSome then (textName, tmap, none)
  else
    match env.loadImage (env.absoluteFilePath textName) with
    | some img =>
      (env.fileName textName, mapInsert (env.fileName textName) img tmap, none)
    | none =>
      match env.loadImage (env.absolutePath meshPath ++ "/" ++ env.filePath textName) with
      | some img =>
        (env.filePath textName, mapInsert (env.filePath textName) img tmap, none)
      | none =>
        ("dummy.png", mapInsert "dummy.png" QImage.dummy tmap, some textName)

/-- The `loadTextures` loop over the mesh texture-name list: threads the
map through the iterations and collects the rewritten list and the
unloaded names in order. -/
def loadTexturesGo (env : TexEnv) (meshPath : String) :
    List String → List (String × QImage) →
    List String × List (String × QImage) × List String
  | [], tmap => ([], tmap, [])
  | t :: ts, tmap =>
    let r := processTexture env meshPath tmap t
    let rest := loadTexturesGo env meshPath ts r.2.1
    (r.1 :: rest.1, rest.2.1,
      match r.2.2 with
      | some u => u :: rest.2.2
      | none => rest.2.2)

/-- `MeshModel::loadTextures`: runs the loop over `cm.textures`, stores
the rewritten list and map back into the model, and returns the list of
names whose two load attempts both failed. -/
def MeshModel.loadTextures (m : MeshModel) (env : TexEnv) : MeshModel × List String :=
  let r := loadTexturesGo env m.fullPathFileName m.cm.textures m.textures
  ({ m with cm := { m.cm with textures := r.1 }, textures := r.2.1 }, r.2.2)

/-- `MeshModel::io2mm`: the switch translating one IO bit into the
matching MM bit; the default branch (C++ `assert(0); return MM_NONE;`)
returns `MM_NONE`. -/
def io2mm (single_iobit : Nat) : Nat :=
  if single_iobit = IOM_NONE then MM_NONE
  else if single_iobit = IOM_VERTCOORD then MM_VERTCOORD
  else if single_iobit = IOM_VERTCOLOR then MM_VERTCOLOR
  else if single_iobit = IOM_VERTFLAGS then MM_VERTFLAG
  else if single_iobit = IOM_VERTQUALITY then MM_VERTQUALITY
  else if single_iobit = IOM_VERTNORMAL then MM_VERTNORMAL
  else if single_iobit = IOM_VERTTEXCOORD then MM_VERTTEXCOORD
  else if single_iobit = IOM_VERTRADIUS then MM_VERTRADIUS
  else if single_iobit = IOM_FACEINDEX then MM_FACEVERT
  else if single_iobit = IOM_FACEFLAGS then MM_FACEFLAG
  else if single_iobit = IOM_FACECOLOR then MM_FACECOLOR
  else if single_iobit = IOM_FACEQUALITY then MM_FACEQUALITY
  else if single_iobit = IOM_FACENORMAL then MM_FACENORMAL
  else if single_iobit = IOM_WEDGTEXCOORD then MM_WEDGTEXCOORD
  else if single_iobit = IOM_WEDGCOLOR then MM_WEDGCOLOR
  else if single_iobit = IOM_WEDGNORMAL then MM_WEDGNORMAL
  else if single_iobit = IOM_BITPOLYGONAL then MM_POLYGONAL
  else MM_NONE

/-- The seventeen case labels of the `io2mm` switch, in source order. -/
def ioListedCases : List Nat :=
  [IOM_NONE, IOM_VERTCOORD, IOM_VERTCOLOR, IOM_VERTFLAGS, IOM_VERTQUALITY,
   IOM_VERTNORMAL, IOM_VERTTEXCOORD, IOM_VERTRADIUS, IOM_FACEINDEX,
   IOM_FACEFLAGS, IOM_FACECOLOR, IOM_FACEQUALITY, IOM_FACENORMAL,
   IOM_WEDGTEXCOORD, IOM_WEDGCOLOR, IOM_WEDGNORMAL, IOM_BITPOLYGONAL]

/-- Whether `io2mm` falls through to the `assert(0)` default branch: the
argument matches none of the case labels. -/
def io2mmHitsDefault (single_iobit : Nat) : Bool :=
  !(ioListedCases.contains single_iobit)

/-- The mirroring invariant from the spec: each optional-attribute bit is
set in `currentDataMask` exactly when the corresponding optional buffer is
enabled on the contained mesh (the `MM_VERTFACETOPO` bit corresponds to
the vertex-side and the face-side vertex-face adjacency buffers). -/
def maskBuffersMirror (m : MeshModel) : Prop :=
  m.hasDataMask MM_VERTTEXCOORD = m.cm.vert.texCoord ∧
  m.hasDataMask MM_VERTRADIUS = m.cm.vert.radius ∧
  m.hasDataMask MM_VERTMARK = m.cm.vert.mark ∧
  m.hasDataMask MM_VERTCURVDIR = m.cm.vert.curvatureDir ∧
  m.hasDataMask MM_FACECOLOR = m.cm.face.color ∧
  m.hasDataMask MM_FACEQUALITY = m.cm.face.quality ∧
  m.hasDataMask MM_FACEMARK = m.cm.face.mark ∧
  m.hasDataMask MM_FACECURVDIR = m.cm.face.curvatureDir ∧
  m.hasDataMask MM_WEDGTEXCOORD = m.cm.face.wedgeTexCoord ∧
  m.hasDataMask MM_VERTFACETOPO = m.cm.vert.vfAdjacency ∧
  m.hasDataMask MM_VERTFACETOPO = m.cm.face.vfAdjacency ∧
  m.hasDataMask MM_FACEFACETOPO = m.cm.face.ffAdjacency

instance (m : MeshModel) : Decidable (maskBuffersMirror m) := by
  unfold maskBuffersMirror
  infer_instance

/-- The mirroring invariant restricted to the bits whose buffers
`clearDataMask` actually disables: all listed bits except
`MM_FACECURVDIR` (whose buffer `clearDataMask` never disables). -/
def maskBuffersMirrorCore (m : MeshModel) : Prop :=
  m.hasDataMask MM_VERTTEXCOORD = m.cm.vert.texCoord ∧
  m.hasDataMask MM_VERTRADIUS = m.cm.vert.radius ∧
  m.hasDataMask MM_VERTMARK = m.cm.vert.mark ∧
  m.hasDataMask MM_VERTCURVDIR = m.cm.vert.curvatureDir ∧
  m.hasDataMask MM_FACECOLOR = m.cm.face.color ∧
  m.hasDataMask MM_FACEQUALITY = m.cm.face.quality ∧
  m.hasDataMask MM_FACEMARK = m.cm.face.mark ∧
  m.hasDataMask MM_WEDGTEXCOORD = m.cm.face.wedgeTexCoord ∧
  m.hasDataMask MM_VERTFACETOPO = m.cm.vert.vfAdjacency ∧
  m.hasDataMask MM_VERTFACETOPO = m.cm.face.vfAdjacency ∧
  m.hasDataMask MM_FACEFACETOPO = m.cm.face.ffAdjacency

instance (m : MeshModel) : Decidable (maskBuffersMirrorCore m) := by
  unfold maskBuffersMirrorCore
  infer_instance

theorem mirror_implies_core (m : MeshModel) (h : maskBuffersMirror m) :
    maskBuffersMirrorCore m := by
  obtain ⟨h1, h2, h3, h4, h5, h6, h7, _, h9, h10, h11, h12⟩ := h
  exact ⟨h1, h2, h3, h4, h5, h6, h7, h9, h10, h11, h12⟩

/-- All optional buffers read by the data-mask operations are disabled, as
on a freshly constructed mesh. -/
def optionalBuffersOff (c : CMeshO) : Prop :=
  c.vert.vfAdjacency = false ∧ c.vert.mark = false ∧ c.vert.texCoord = false ∧
  c.vert.curvatureDir = false ∧ c.vert.radius = false ∧
  c.face.quality = false ∧ c.face.mark = false ∧ c.face.color = false ∧
  c.face.ffAdjacency = false ∧ c.face.vfAdjacency = false ∧
  c.face.curvatureDir = false ∧ c.face.wedgeTexCoord = false

instance (c : CMeshO) : Decidable (optionalBuffersOff c) := by
  unfold optionalBuffersOff
  infer_instance

/-- States reachable from a freshly constructed `MeshModel` by the public
data-mask operations: `clear`, `updateDataMask` in all overloads,
`clearDataMask` and `enable`. -/
inductive ReachableState : MeshModel → Prop where
  | init (id : Nat) (f l : String) : ReachableState (MeshModel.mkModel id f l)
  | clear {m : MeshModel} : ReachableState m → ReachableState m.clear
  | updateAuto {m : MeshModel} : ReachableState m → ReachableState m.updateDataMaskAuto
  | update {m : MeshModel} (n : Nat) : ReachableState m →
      ReachableState (m.updateDataMask n)
  | updateFrom {m other : MeshModel} : ReachableState m → ReachableState other →
      ReachableState (m.updateDataMaskFrom other)
  | clearMask {m : MeshModel} (n : Nat) : ReachableState m →
      ReachableState (m.clearDataMask n)
  | enable {m : MeshModel} (n : Nat) : ReachableState m →
      ReachableState (m.enable n)

theorem and_two_pow_bne (n i : Nat) : (n &&& 2 ^ i != 0) = n.testBit i := by
  rw [Nat.and_two_pow]
  cases h : n.testBit i <;> simp [Nat.pos_iff_ne_zero]

theorem hasBitB_two_pow (n i : Nat) : hasBitB n (2 ^ i) = n.testBit i := by
  rw [hasBitB, and_two_pow_bne]

theorem testBit_not32 (n i : Nat) (h : i < 32) : (not32 n).testBit i = !(n.testBit i) := by
  have h32 : (4294967295 : Nat) = 2 ^ 32 - 1 := by norm_num
  have h32' : (4294967296 : Nat) = 2 ^ 32 := by norm_num
  rw [not32, Nat.testBit_xor, h32, h32', Nat.testBit_two_pow_sub_one,
    Nat.testBit_mod_two_pow]
  simp [h]

theorem testBit_ite_pow (c : Bool) (j i : Nat) :
    (if c = true then (2 : Nat) ^ j else 0).testBit i = (c && decide (j = i)) := by
  cases c <;> simp [Nat.testBit_two_pow]

theorem or_eq_ite (a b : Bool) : (a || b) = if b = true then true else a := by
  cases b <;> simp

theorem and_not_eq_ite (a b : Bool) : (a && !b) = if (b && a) = true then false else a := by
  cases a <;> cases b <;> rfl

theorem updateDataMask_preserves_mirror (m : MeshModel) (n : Nat)
    (h : maskBuffersMirror m) : maskBuffersMirror (m.updateDataMask n) := by
  obtain ⟨h1, h2, h3, h4, h5, h6, h7, h8, h9, h10, h11, h12⟩ := h
  unfold maskBuffersMirror MeshModel.hasDataMask at *
  simp only [MeshModel.updateDataMask, MM_VERTTEXCOORD, MM_VERTRADIUS, MM_VERTMARK,
    MM_VERTCURVDIR, MM_FACECOLOR, MM_FACEQUALITY, MM_FACEMARK, MM_FACECURVDIR,
    MM_WEDGTEXCOORD, MM_VERTFACETOPO, MM_FACEFACETOPO, hasBitB_two_pow,
    and_two_pow_bne, Nat.testBit_or] at *
  exact ⟨by rw [← h1]; exact or_eq_ite _ _, by rw [← h2]; exact or_eq_ite _ _,
    by rw [← h3]; exact or_eq_ite _ _, by rw [← h4]; exact or_eq_ite _ _,
    by rw [← h5]; exact or_eq_ite _ _, by rw [← h6]; exact or_eq_ite _ _,
    by rw [← h7]; exact or_eq_ite _ _, by rw [← h8]; exact or_eq_ite _ _,
    by rw [← h9]; exact or_eq_ite _ _, by rw [← h10]; exact or_eq_ite _ _,
    by rw [← h11]; exact or_eq_ite _ _, by rw [← h12]; exact or_eq_ite _ _⟩

theorem updateDataMaskAuto_preserves_mirror (m : MeshModel)
    (h : maskBuffersMirror m) : maskBuffersMirror m.updateDataMaskAuto := by
  have hsync : m.cm.vert.vfAdjacency = m.cm.face.vfAdjacency := by
    obtain ⟨_, _, _, _, _, _, _, _, _, h10, h11, _⟩ := h
    rw [← h10, h11]
  unfold maskBuffersMirror MeshModel.hasDataMask
  simp only [MeshModel.updateDataMaskAuto, MM_NONE, MM_VERTCOORD, MM_VERTNORMAL,
    MM_VERTFLAG, MM_VERTQUALITY, MM_VERTCOLOR, MM_VERTMARK, MM_VERTFACETOPO,
    MM_VERTCURVDIR, MM_VERTRADIUS, MM_VERTTEXCOORD, MM_FACEVERT, MM_FACENORMAL,
    MM_FACEFLAG, MM_FACECOLOR, MM_FACEQUALITY, MM_FACEMARK, MM_FACEFACETOPO,
    MM_FACECURVDIR, MM_WEDGTEXCOORD, and_two_pow_bne, Nat.testBit_or,
    testBit_ite_pow, Nat.testBit_two_pow, Nat.zero_testBit]
  refine ⟨by simp, by simp, by simp, by simp, by simp, by simp, by simp, by simp,
    by simp, ?_, ?_, by simp⟩
  · simp [← hsync]
  · simp [hsync]

theorem clearDataMask_preserves_mirrorCore (m : MeshModel) (n : Nat)
    (h : maskBuffersMirrorCore m) : maskBuffersMirrorCore (m.clearDataMask n) := by
  obtain ⟨h1, h2, h3, h4, h5, h6, h7, h9, h10, h11, h12⟩ := h
  unfold maskBuffersMirrorCore MeshModel.hasDataMask at *
  simp only [MeshModel.clearDataMask, MeshModel.hasDataMask, MM_VERTTEXCOORD,
    MM_VERTRADIUS, MM_VERTMARK, MM_VERTCURVDIR, MM_FACECOLOR, MM_FACEQUALITY,
    MM_FACEMARK, MM_WEDGTEXCOORD, MM_VERTFACETOPO, MM_FACEFACETOPO, hasBitB_two_pow,
    and_two_pow_bne, Nat.testBit_and] at *
  rw [testBit_not32 n 10 (by norm_num), testBit_not32 n 9 (by norm_num),
    testBit_not32 n 5 (by norm_num), testBit_not32 n 8 (by norm_num),
    testBit_not32 n 15 (by norm_num), testBit_not32 n 16 (by norm_num),
    testBit_not32 n 17 (by norm_num), testBit_not32 n 21 (by norm_num),
    testBit_not32 n 6 (by norm_num), testBit_not32 n 18 (by norm_num)]
  exact ⟨by rw [← h1]; exact and_not_eq_ite _ _, by rw [← h2]; exact and_not_eq_ite _ _,
    by rw [← h3]; exact and_not_eq_ite _ _, by rw [← h4]; exact and_not_eq_ite _ _,
    by rw [← h5]; exact and_not_eq_ite _ _, by rw [← h6]; exact and_not_eq_ite _ _,
    by rw [← h7]; exact and_not_eq_ite _ _,
    by rw [← h9]; exact and_not_eq_ite _ _, by rw [← h10]; exact and_not_eq_ite _ _,
    by rw [← h11]; exact and_not_eq_ite _ _, by rw [← h12]; exact and_not_eq_ite _ _⟩

theorem ite_updateDataMask_preserves_mirror (c : Bool) (b : Nat) (m : MeshModel)
    (h : maskBuffersMirror m) :
    maskBuffersMirror (if c then m.updateDataMask b else m) := by
  cases c
  · simpa using h
  · simpa using updateDataMask_preserves_mirror m b h

theorem enable_preserves_mirror (m : MeshModel) (n : Nat)
    (h : maskBuffersMirror m) : maskBuffersMirror (m.enable n) := by
  simp only [MeshModel.enable]
  exact ite_updateDataMask_preserves_mirror _ _ _
    (ite_updateDataMask_preserves_mirror _ _ _
      (ite_updateDataMask_preserves_mirror _ _ _
        (ite_updateDataMask_preserves_mirror _ _ _
          (ite_updateDataMask_preserves_mirror _ _ _
            (ite_updateDataMask_preserves_mirror _ _ _
              (ite_updateDataMask_preserves_mirror _ _ _
                (ite_updateDataMask_preserves_mirror _ _ _
                  (ite_updateDataMask_preserves_mirror _ _ _ h))))))))

theorem clear_establishes_mirror (m : MeshModel) (h : optionalBuffersOff m.cm) :
    maskBuffersMirror m.clear := by
  obtain ⟨g1, g2, g3, g4, g5, g6, g7, g8, g9, g10, g11, g12⟩ := h
  unfold maskBuffersMirror MeshModel.hasDataMask
  simp only [MeshModel.clear, g1, g2, g3, g4, g5, g6, g7, g8, g9, g10, g11, g12]
  refine ⟨?_, ?_, ?_, ?_, ?_, ?_, ?_, ?_, ?_, ?_, ?_, ?_⟩ <;> decide

/-- C1: the claimed invariant — every optional-attribute bit of the mask
mirrors the enabledness of the corresponding buffer at every state
reachable by the public operations — fails on the code: after
`updateDataMask(MM_VERTMARK)` followed by `clear()`, the vertex mark
buffer is still enabled while its mask bit is cleared, because `clear()`
resets the mask without disabling any buffer. -/
theorem C1_mirror_counterexample :
    ReachableState ((initModel.updateDataMask MM_VERTMARK).clear) ∧
    ¬ maskBuffersMirror ((initModel.updateDataMask MM_VERTMARK).clear) :=
  ⟨ReachableState.clear (ReachableState.update MM_VERTMARK
      (ReachableState.init 0 "" "")), by decide⟩

/-- C1 (amended): the mirroring invariant holds initially and is preserved
by `updateDataMask` (both overloads), the no-argument `updateDataMask()`
and `enable`; `clearDataMask` preserves it for every listed bit except
`MM_FACECURVDIR` (whose buffer it never disables, as the last conjunct
exhibits); `clear` re-establishes it only from a state whose optional
buffers are all disabled, and does not preserve it in general. -/
theorem C1_mirror_per_operation :
    maskBuffersMirror initModel ∧
    (∀ (m : MeshModel) (n : Nat), maskBuffersMirror m →
      maskBuffersMirror (m.updateDataMask n)) ∧
    (∀ m other : MeshModel, maskBuffersMirror m →
      maskBuffersMirror (m.updateDataMaskFrom other)) ∧
    (∀ m : MeshModel, maskBuffersMirror m →
      maskBuffersMirror m.updateDataMaskAuto) ∧
    (∀ (m : MeshModel) (n : Nat), maskBuffersMirror m →
      maskBuffersMirror (m.enable n)) ∧
    (∀ (m : MeshModel) (n : Nat), maskBuffersMirrorCore m →
      maskBuffersMirrorCore (m.clearDataMask n)) ∧
    (∀ m : MeshModel, optionalBuffersOff m.cm → maskBuffersMirror m.clear) ∧
    (((initModel.updateDataMask MM_FACECURVDIR).clearDataMask
        MM_FACECURVDIR).cm.face.curvatureDir = true ∧
      ((initModel.updateDataMask MM_FACECURVDIR).clearDataMask
        MM_FACECURVDIR).hasDataMask MM_FACECURVDIR = false) :=
  ⟨by decide, updateDataMask_preserves_mirror,
   fun m other h => updateDataMask_preserves_mirror m other.currentDataMask h,
   updateDataMaskAuto_preserves_mirror, enable_preserves_mirror,
   clearDataMask_preserves_mirrorCore, clear_establishes_mirror, by decide, by decide⟩

/-- C1 witness: the preservation and establishment parts of the amended
invariant theorem applied at concrete states. -/
theorem C1_mirror_per_operation_witness :
    maskBuffersMirror (initModel.updateDataMask MM_VERTTEXCOORD) ∧
    maskBuffersMirror initModel.clear ∧
    maskBuffersMirrorCore (initModel.clearDataMask MM_VERTMARK) := by
  obtain ⟨h1, h2, h3, h4, h5, h6, h7, h8⟩ := C1_mirror_per_operation
  exact ⟨h2 initModel MM_VERTTEXCOORD (by decide),
    h7 initModel (by decide),
    h6 initModel MM_VERTMARK (by decide)⟩

/-- C2: `updateDataMask(neededDataMask)` is monotone and enabling: the new
mask is the bitwise OR of the old mask and the argument (so no bit is ever
cleared, as the second conjunct states per bit), and each
optional-attribute bit present in the argument has its buffer enabled on
the contained mesh. -/
theorem C2_updateDataMask_monotone_enabling (m : MeshModel) (n : Nat) :
    (m.updateDataMask n).currentDataMask = m.currentDataMask ||| n ∧
    (∀ i : Nat, m.currentDataMask.testBit i = true →
      (m.updateDataMask n).currentDataMask.testBit i = true) ∧
    (hasBitB n MM_VERTFACETOPO = true →
      (m.updateDataMask n).cm.vert.vfAdjacency = true ∧
      (m.updateDataMask n).cm.face.vfAdjacency = true) ∧
    (hasBitB n MM_FACEFACETOPO = true →
      (m.updateDataMask n).cm.face.ffAdjacency = true) ∧
    (hasBitB n MM_WEDGTEXCOORD = true →
      (m.updateDataMask n).cm.face.wedgeTexCoord = true) ∧
    (hasBitB n MM_FACECOLOR = true → (m.updateDataMask n).cm.face.color = true) ∧
    (hasBitB n MM_FACEQUALITY = true → (m.updateDataMask n).cm.face.quality = true) ∧
    (hasBitB n MM_FACECURVDIR = true →
      (m.updateDataMask n).cm.face.curvatureDir = true) ∧
    (hasBitB n MM_FACEMARK = true → (m.updateDataMask n).cm.face.mark = true) ∧
    (hasBitB n MM_VERTMARK = true → (m.updateDataMask n).cm.vert.mark = true) ∧
    (hasBitB n MM_VERTCURVDIR = true →
      (m.updateDataMask n).cm.vert.curvatureDir = true) ∧
    (hasBitB n MM_VERTRADIUS = true → (m.updateDataMask n).cm.vert.radius = true) ∧
    (hasBitB n MM_VERTTEXCOORD = true →
      (m.updateDataMask n).cm.vert.texCoord = true) := by
  refine ⟨rfl, ?_, ?_, ?_, ?_, ?_, ?_, ?_, ?_, ?_, ?_, ?_, ?_⟩
  · intro i h
    simp [MeshModel.updateDataMask, Nat.testBit_or, h]
  all_goals intro h
  all_goals simp [MeshModel.updateDataMask, h]

/-- C2 witness: the monotone-enabling theorem applied at the initial model
and a mask holding all eleven handled optional-attribute bits. -/
theorem C2_updateDataMask_witness :
    (initModel.updateDataMask (MM_VERTFACETOPO ||| MM_FACEFACETOPO |||
        MM_WEDGTEXCOORD ||| MM_FACECOLOR ||| MM_FACEQUALITY ||| MM_FACECURVDIR |||
        MM_FACEMARK ||| MM_VERTMARK ||| MM_VERTCURVDIR ||| MM_VERTRADIUS |||
        MM_VERTTEXCOORD)).currentDataMask =
      initModel.currentDataMask ||| (MM_VERTFACETOPO ||| MM_FACEFACETOPO |||
        MM_WEDGTEXCOORD ||| MM_FACECOLOR ||| MM_FACEQUALITY ||| MM_FACECURVDIR |||
        MM_FACEMARK ||| MM_VERTMARK ||| MM_VERTCURVDIR ||| MM_VERTRADIUS |||
        MM_VERTTEXCOORD) ∧
    (initModel.updateDataMask (MM_VERTFACETOPO ||| MM_FACEFACETOPO |||
        MM_WEDGTEXCOORD ||| MM_FACECOLOR ||| MM_FACEQUALITY ||| MM_FACECURVDIR |||
        MM_FACEMARK ||| MM_VERTMARK ||| MM_VERTCURVDIR ||| MM_VERTRADIUS |||
        MM_VERTTEXCOORD)).currentDataMask.testBit 0 = true ∧
    (initModel.updateDataMask (MM_VERTFACETOPO ||| MM_FACEFACETOPO |||
        MM_WEDGTEXCOORD ||| MM_FACECOLOR ||| MM_FACEQUALITY ||| MM_FACECURVDIR |||
        MM_FACEMARK ||| MM_VERTMARK ||| MM_VERTCURVDIR ||| MM_VERTRADIUS |||
        MM_VERTTEXCOORD)).cm.vert.vfAdjacency = true ∧
    (initModel.updateDataMask (MM_VERTFACETOPO ||| MM_FACEFACETOPO |||
        MM_WEDGTEXCOORD ||| MM_FACECOLOR ||| MM_FACEQUALITY ||| MM_FACECURVDIR |||
        MM_FACEMARK ||| MM_VERTMARK ||| MM_VERTCURVDIR ||| MM_VERTRADIUS |||
        MM_VERTTEXCOORD)).cm.face.curvatureDir = true ∧
    (initModel.updateDataMask (MM_VERTFACETOPO ||| MM_FACEFACETOPO |||
        MM_WEDGTEXCOORD ||| MM_FACECOLOR ||| MM_FACEQUALITY ||| MM_FACECURVDIR |||
        MM_FACEMARK ||| MM_VERTMARK ||| MM_VERTCURVDIR ||| MM_VERTRADIUS |||
        MM_VERTTEXCOORD)).cm.vert.texCoord = true := by
  obtain ⟨h1, h2, h3, h4, h5, h6, h7, h8, h9, h10, h11, h12, h13⟩ :=
    C2_updateDataMask_monotone_enabling initModel
      (MM_VERTFACETOPO ||| MM_FACEFACETOPO ||| MM_WEDGTEXCOORD ||| MM_FACECOLOR |||
        MM_FACEQUALITY ||| MM_FACECURVDIR ||| MM_FACEMARK ||| MM_VERTMARK |||
        MM_VERTCURVDIR ||| MM_VERTRADIUS ||| MM_VERTTEXCOORD)
  exact ⟨h1, h2 0 (by decide), (h3 (by decide)).1, h8 (by decide), h13 (by decide)⟩

/-- C3 counterexample: the claim says every optional buffer whose bit is
both requested and previously set is disabled, but for `MM_FACECURVDIR`
the bit is requested and set while the face curvature-direction buffer
stays enabled — `clearDataMask` has no disable row for it. -/
theorem C3_clearDataMask_counterexample :
    hasBitB MM_FACECURVDIR MM_FACECURVDIR = true ∧
    (initModel.updateDataMask MM_FACECURVDIR).hasDataMask MM_FACECURVDIR = true ∧
    ((initModel.updateDataMask MM_FACECURVDIR).clearDataMask
      MM_FACECURVDIR).cm.face.curvatureDir = true := by decide

/-- C3 (amended): `clearDataMask(unneededDataMask)` clears exactly the
requested bits of the 32-bit mask and frames the rest; every optional
buffer whose bit is both requested and previously set is disabled, except
the face curvature-direction buffer, which is never touched; buffers whose
bit is not requested, and all other state, are left unchanged. -/
theorem C3_clearDataMask_spec (m : MeshModel) (n : Nat) :
    (∀ i : Nat, i < 32 → (m.clearDataMask n).currentDataMask.testBit i =
      (m.currentDataMask.testBit i && !(n.testBit i))) ∧
    (hasBitB n MM_VERTFACETOPO = true → m.hasDataMask MM_VERTFACETOPO = true →
      (m.clearDataMask n).cm.vert.vfAdjacency = false ∧
      (m.clearDataMask n).cm.face.vfAdjacency = false) ∧
    (hasBitB n MM_FACEFACETOPO = true → m.hasDataMask MM_FACEFACETOPO = true →
      (m.clearDataMask n).cm.face.ffAdjacency = false) ∧
    (hasBitB n MM_WEDGTEXCOORD = true → m.hasDataMask MM_WEDGTEXCOORD = true →
      (m.clearDataMask n).cm.face.wedgeTexCoord = false) ∧
    (hasBitB n MM_FACECOLOR = true → m.hasDataMask MM_FACECOLOR = true →
      (m.clearDataMask n).cm.face.color = false) ∧
    (hasBitB n MM_FACEQUALITY = true → m.hasDataMask MM_FACEQUALITY = true →
      (m.clearDataMask n).cm.face.quality = false) ∧
    (hasBitB n MM_FACEMARK = true → m.hasDataMask MM_FACEMARK = true →
      (m.clearDataMask n).cm.face.mark = false) ∧
    (hasBitB n MM_VERTMARK = true → m.hasDataMask MM_VERTMARK = true →
      (m.clearDataMask n).cm.vert.mark = false) ∧
    (hasBitB n MM_VERTCURV = true → m.hasDataMask MM_VERTCURV = true →
      (m.clearDataMask n).cm.vert.curvature = false) ∧
    (hasBitB n MM_VERTCURVDIR = true → m.hasDataMask MM_VERTCURVDIR = true →
      (m.clearDataMask n).cm.vert.curvatureDir = false) ∧
    (hasBitB n MM_VERTRADIUS = true → m.hasDataMask MM_VERTRADIUS = true →
      (m.clearDataMask n).cm.vert.radius = false) ∧
    (hasBitB n MM_VERTTEXCOORD = true → m.hasDataMask MM_VERTTEXCOORD = true →
      (m.clearDataMask n).cm.vert.texCoord = false) ∧
    (m.clearDataMask n).cm.face.curvatureDir = m.cm.face.curvatureDir ∧
    (hasBitB n MM_VERTFACETOPO = false →
      (m.clearDataMask n).cm.vert.vfAdjacency = m.cm.vert.vfAdjacency ∧
      (m.clearDataMask n).cm.face.vfAdjacency = m.cm.face.vfAdjacency) ∧
    (hasBitB n MM_FACEFACETOPO = false →
      (m.clearDataMask n).cm.face.ffAdjacency = m.cm.face.ffAdjacency) ∧
    (hasBitB n MM_WEDGTEXCOORD = false →
      (m.clearDataMask n).cm.face.wedgeTexCoord = m.cm.face.wedgeTexCoord) ∧
    (hasBitB n MM_FACECOLOR = false →
      (m.clearDataMask n).cm.face.color = m.cm.face.color) ∧
    (hasBitB n MM_FACEQUALITY = false →
      (m.clearDataMask n).cm.face.quality = m.cm.face.quality) ∧
    (hasBitB n MM_FACEMARK = false →
      (m.clearDataMask n).cm.face.mark = m.cm.face.mark) ∧
    (hasBitB n MM_VERTMARK = false →
      (m.clearDataMask n).cm.vert.mark = m.cm.vert.mark) ∧
    (hasBitB n MM_VERTCURV = false →
      (m.clearDataMask n).cm.vert.curvature = m.cm.vert.curvature) ∧
    (hasBitB n MM_VERTCURVDIR = false →
      (m.clearDataMask n).cm.vert.curvatureDir = m.cm.vert.curvatureDir) ∧
    (hasBitB n MM_VERTRADIUS = false →
      (m.clearDataMask n).cm.vert.radius = m.cm.vert.radius) ∧
    (hasBitB n MM_VERTTEXCOORD = false →
      (m.clearDataMask n).cm.vert.texCoord = m.cm.vert.texCoord) ∧
    (m.clearDataMask n).cm.textures = m.cm.textures ∧
    (m.clearDataMask n).textures = m.textures ∧
    (m.clearDataMask n).modified = m.modified ∧
    (m.clearDataMask n).visible = m.visible ∧
    (m.clearDataMask n).cm.Tr = m.cm.Tr ∧
    (m.clearDataMask n).cm.sfn = m.cm.sfn ∧
    (m.clearDataMask n).cm.svn = m.cm.svn := by
  refine ⟨?_, ?_, ?_, ?_, ?_, ?_, ?_, ?_, ?_, ?_, ?_, ?_, rfl, ?_, ?_, ?_, ?_, ?_,
    ?_, ?_, ?_, ?_, ?_, ?_, rfl, rfl, rfl, rfl, rfl, rfl, rfl⟩
  · intro i hi
    simp only [MeshModel.clearDataMask, Nat.testBit_and, testBit_not32 n i hi]
  all_goals first
    | (intro h1 h2
       simp [MeshModel.clearDataMask, h1, h2])
    | (intro h1
       simp [MeshModel.clearDataMask, h1])

/-- C3 witness: the amended `clearDataMask` theorem applied at a state
with all handled buffers enabled, once with the full requested mask
(disable parts) and once with the empty mask (frame parts). -/
theorem C3_clearDataMask_witness :
    ((initModel.updateDataMask (MM_VERTFACETOPO ||| MM_FACEFACETOPO |||
        MM_WEDGTEXCOORD ||| MM_FACECOLOR ||| MM_FACEQUALITY ||| MM_FACEMARK |||
        MM_VERTMARK ||| MM_VERTCURVDIR ||| MM_VERTRADIUS |||
        MM_VERTTEXCOORD)).clearDataMask MM_VERTMARK).cm.vert.mark = false ∧
    ((initModel.updateDataMask (MM_VERTFACETOPO ||| MM_FACEFACETOPO |||
        MM_WEDGTEXCOORD ||| MM_FACECOLOR ||| MM_FACEQUALITY ||| MM_FACEMARK |||
        MM_VERTMARK ||| MM_VERTCURVDIR ||| MM_VERTRADIUS |||
        MM_VERTTEXCOORD)).clearDataMask MM_VERTMARK).currentDataMask.testBit 5 =
      false ∧
    ((initModel.updateDataMask (MM_VERTFACETOPO ||| MM_FACEFACETOPO |||
        MM_WEDGTEXCOORD ||| MM_FACECOLOR ||| MM_FACEQUALITY ||| MM_FACEMARK |||
        MM_VERTMARK ||| MM_VERTCURVDIR ||| MM_VERTRADIUS |||
        MM_VERTTEXCOORD)).clearDataMask MM_VERTMARK).cm.vert.texCoord =
      (initModel.updateDataMask (MM_VERTFACETOPO ||| MM_FACEFACETOPO |||
        MM_WEDGTEXCOORD ||| MM_FACECOLOR ||| MM_FACEQUALITY ||| MM_FACEMARK |||
        MM_VERTMARK ||| MM_VERTCURVDIR ||| MM_VERTRADIUS |||
        MM_VERTTEXCOORD)).cm.vert.texCoord := by
  obtain ⟨g1, g2, g3, g4, g5, g6, g7, g8, g9, g10, g11, g12, g13, g14, g15, g16,
    g17, g18, g19, g20, g21, g22, g23, g24, grest⟩ :=
    C3_clearDataMask_spec
      (initModel.updateDataMask (MM_VERTFACETOPO ||| MM_FACEFACETOPO |||
        MM_WEDGTEXCOORD ||| MM_FACECOLOR ||| MM_FACEQUALITY ||| MM_FACEMARK |||
        MM_VERTMARK ||| MM_VERTCURVDIR ||| MM_VERTRADIUS ||| MM_VERTTEXCOORD))
      MM_VERTMARK
  refine ⟨g8 (by decide) (by decide), ?_, g24 (by decide)⟩
  rw [g1 5 (by norm_num)]
  decide

/-- C4: `hasDataMask(maskToBeTested)` returns `true` exactly when the
bitwise AND of `currentDataMask` and the argument is nonzero; it is a pure
function of the state (it is defined as one, so it modifies nothing), and
each specialised single-bit query agrees with `hasDataMask` on its bit. -/
theorem C4_hasDataMask_query (m : MeshModel) (x : Nat) :
    (m.hasDataMask x = true ↔ m.currentDataMask &&& x ≠ 0) ∧
    m.hasPerVertexColor = m.hasDataMask MM_VERTCOLOR ∧
    m.hasPerVertexQuality = m.hasDataMask MM_VERTQUALITY ∧
    m.hasPerVertexTexCoord = m.hasDataMask MM_VERTTEXCOORD ∧
    m.hasPerFaceColor = m.hasDataMask MM_FACECOLOR ∧
    m.hasPerFaceQuality = m.hasDataMask MM_FACEQUALITY ∧
    m.hasPerFaceWedgeTexCoords = m.hasDataMask MM_WEDGTEXCOORD := by
  refine ⟨?_, rfl, rfl, rfl, rfl, rfl, rfl⟩
  simp [MeshModel.hasDataMask]

/-- C4 witness: the query theorem applied at the initial model and the
vertex-coordinate bit. -/
theorem C4_hasDataMask_query_witness :
    initModel.hasDataMask MM_VERTCOORD = true ∧
    initModel.hasPerVertexColor = initModel.hasDataMask MM_VERTCOLOR :=
  ⟨(C4_hasDataMask_query initModel MM_VERTCOORD).1.mpr (by decide),
   (C4_hasDataMask_query initModel 0).2.1⟩

/-- C10: `clear()` establishes the fixed baseline — modification flag
false, visible, identity transform, zero selection counters, mask exactly
the six always-active bits (and the constructor produces the same mask) —
and this baseline differs from the one computed by the no-argument
`updateDataMask()` on a mesh with no optional buffer enabled, which
additionally contains `MM_VERTQUALITY` and `MM_VERTCOLOR`. -/
theorem C10_clear_baseline (m : MeshModel) :
    m.clear.modified = false ∧
    m.clear.visible = true ∧
    m.clear.cm.Tr = identity44 ∧
    m.clear.cm.sfn = 0 ∧
    m.clear.cm.svn = 0 ∧
    m.clear.currentDataMask =
      (MM_VERTCOORD ||| MM_VERTNORMAL ||| MM_VERTFLAG |||
        MM_FACEVERT ||| MM_FACENORMAL ||| MM_FACEFLAG) ∧
    (MeshModel.mkModel m.meshId m.fullPathFileName m.labelName).currentDataMask =
      m.clear.currentDataMask ∧
    (optionalBuffersOff m.cm → m.updateDataMaskAuto.currentDataMask =
      (MM_VERTCOORD ||| MM_VERTNORMAL ||| MM_VERTFLAG |||
        MM_FACEVERT ||| MM_FACENORMAL ||| MM_FACEFLAG) |||
        MM_VERTQUALITY ||| MM_VERTCOLOR) ∧
    ((MM_VERTCOORD ||| MM_VERTNORMAL ||| MM_VERTFLAG |||
        MM_FACEVERT ||| MM_FACENORMAL ||| MM_FACEFLAG) : Nat) ≠
      (MM_VERTCOORD ||| MM_VERTNORMAL ||| MM_VERTFLAG |||
        MM_FACEVERT ||| MM_FACENORMAL ||| MM_FACEFLAG) |||
        MM_VERTQUALITY ||| MM_VERTCOLOR := by
  refine ⟨rfl, rfl, rfl, rfl, rfl, rfl, rfl, ?_, by decide⟩
  intro h
  obtain ⟨g1, g2, g3, g4, g5, g6, g7, g8, g9, g10, g11, g12⟩ := h
  simp only [MeshModel.updateDataMaskAuto, g1, g2, g3, g4, g5, g6, g7, g8, g9,
    g10, g11, g12]
  decide

/-- C10 witness: the baseline theorem applied at the initial model, whose
optional buffers are all disabled. -/
theorem C10_clear_baseline_witness :
    initModel.updateDataMaskAuto.currentDataMask =
      (MM_VERTCOORD ||| MM_VERTNORMAL ||| MM_VERTFLAG |||
        MM_FACEVERT ||| MM_FACENORMAL ||| MM_FACEFLAG) |||
        MM_VERTQUALITY ||| MM_VERTCOLOR ∧
    initModel.clear.modified = false :=
  ⟨(C10_clear_baseline initModel).2.2.2.2.2.2.2.1 (by decide),
   (C10_clear_baseline initModel).1⟩

/-- Keys of the association list are pairwise distinct, as they are in a
`std::map`. -/
def keysNodup (l : List (String × QImage)) : Prop :=
  (l.map Prod.fst).Nodup

theorem mapFind?_eq_none_of_not_mem_keys (k : String) (l : List (String × QImage))
    (h : k ∉ l.map Prod.fst) : mapFind? k l = none := by
  induction l with
  | nil => rfl
  | cons p t ih =>
    obtain ⟨a, b⟩ := p
    simp only [List.map_cons, List.mem_cons, not_or] at h
    simp only [mapFind?]
    rw [if_neg (Ne.symm h.1)]
    exact ih h.2

theorem mapFind?_insert_self (k : String) (v : QImage) (l : List (String × QImage)) :
    mapFind? k (mapInsert k v l) = some v := by
  induction l with
  | nil => simp [mapInsert, mapFind?]
  | cons p t ih =>
    obtain ⟨a, b⟩ := p
    by_cases h : a = k
    · simp [mapInsert, mapFind?, h]
    · simp [mapInsert, mapFind?, h, ih]

theorem mapFind?_insert_ne (k' k : String) (v : QImage) (l : List (String × QImage))
    (h : k' ≠ k) : mapFind? k' (mapInsert k v l) = mapFind? k' l := by
  induction l with
  | nil =>
    simp only [mapInsert, mapFind?]
    rw [if_neg (Ne.symm h)]
  | cons p t ih =>
    obtain ⟨a, b⟩ := p
    by_cases hak : a = k
    · have hak' : ¬(a = k') := fun hk => h (hk.symm.trans hak)
      simp only [mapInsert, if_pos hak, mapFind?]
      rw [if_neg hak', if_neg hak']
    · simp only [mapInsert, if_neg hak, mapFind?]
      by_cases hak' : a = k'
      · rw [if_pos hak', if_pos hak']
      · rw [if_neg hak', if_neg hak']
        exact ih

theorem keys_mapInsert (k : String) (v : QImage) (l : List (String × QImage)) :
    (mapInsert k v l).map Prod.fst =
      if k ∈ l.map Prod.fst then l.map Prod.fst else l.map Prod.fst ++ [k] := by
  induction l with
  | nil => simp [mapInsert]
  | cons p t ih =>
    obtain ⟨a, b⟩ := p
    by_cases hak : a = k
    · simp [mapInsert, hak]
    · have hka : k ≠ a := fun hk => hak hk.symm
      simp only [mapInsert, if_neg hak, List.map_cons, ih]
      by_cases hmem : k ∈ t.map Prod.fst
      · simp [List.mem_cons, hmem, hka]
      · simp [List.mem_cons, hmem, hka]

theorem keys_insert_nodup (k : String) (v : QImage) (l : List (String × QImage))
    (h : keysNodup l) : keysNodup (mapInsert k v l) := by
  rw [keysNodup, keys_mapInsert]
  by_cases hmem : k ∈ l.map Prod.fst
  · simpa [hmem] using h
  · rw [if_neg hmem]
    refine List.Nodup.append h (List.nodup_singleton k) ?_
    intro x hx hxk
    rw [List.mem_singleton] at hxk
    exact hmem (hxk ▸ hx)

theorem mapFind?_erase_self (k : String) (l : List (String × QImage))
    (h : keysNodup l) : mapFind? k (mapErase k l) = none := by
  induction l with
  | nil => rfl
  | cons p t ih =>
    obtain ⟨a, b⟩ := p
    rw [keysNodup, List.map_cons, List.nodup_cons] at h
    by_cases hak : a = k
    · simp only [mapErase, if_pos hak]
      exact mapFind?_eq_none_of_not_mem_keys k t (hak ▸ h.1)
    · simp only [mapErase, if_neg hak, mapFind?, if_neg hak]
      exact ih h.2

theorem mapFind?_erase_ne (k' k : String) (l : List (String × QImage))
    (h : k' ≠ k) : mapFind? k' (mapErase k l) = mapFind? k' l := by
  induction l with
  | nil => rfl
  | cons p t ih =>
    obtain ⟨a, b⟩ := p
    by_cases hak : a = k
    · have hak' : ¬(a = k') := fun hk => h (hk.symm.trans hak)
      simp only [mapErase, if_pos hak, mapFind?]
      rw [if_neg hak']
    · simp only [mapErase, if_neg hak, mapFind?]
      by_cases hak' : a = k'
      · rw [if_pos hak', if_pos hak']
      · rw [if_neg hak', if_neg hak']
        exact ih

theorem mapFind?_assign_self (k : String) (v : QImage) (l : List (String × QImage))
    (h : (mapFind? k l).isSome = true) : mapFind? k (mapAssign k v l) = some v := by
  induction l with
  | nil => simp [mapFind?] at h
  | cons p t ih =>
    obtain ⟨a, b⟩ := p
    by_cases hak : a = k
    · simp only [mapAssign, if_pos hak, mapFind?]
    · simp only [mapFind?, if_neg hak] at h
      simp only [mapAssign, if_neg hak, mapFind?, if_neg hak]
      exact ih h

theorem mapFind?_assign_ne (k' k : String) (v : QImage) (l : List (String × QImage))
    (h : k' ≠ k) : mapFind? k' (mapAssign k v l) = mapFind? k' l := by
  induction l with
  | nil => rfl
  | cons p t ih =>
    obtain ⟨a, b⟩ := p
    by_cases hak : a = k
    · have hak' : ¬(a = k') := fun hk => h (hk.symm.trans hak)
      simp only [mapAssign, if_pos hak, mapFind?]
      rw [if_neg hak', if_neg hak']
    · simp only [mapAssign, if_neg hak, mapFind?]
      by_cases hak' : a = k'
      · rw [if_pos hak', if_pos hak']
      · rw [if_neg hak', if_neg hak']
        exact ih

theorem contains_eq_true_iff_mem (l : List String) (a : String) :
    l.contains a = true ↔ a ∈ l := by
  induction l with
  | nil => simp
  | cons b t ih =>
    simp only [List.contains_cons, Bool.or_eq_true, List.mem_cons, ih, beq_iff_eq]

theorem replaceFirst_of_not_mem (o n : String) (l : List String) (h : o ∉ l) :
    replaceFirst o n l = l := by
  induction l with
  | nil => rfl
  | cons a t ih =>
    simp only [List.mem_cons, not_or] at h
    simp only [replaceFirst]
    rw [if_neg (Ne.symm h.1), ih h.2]

theorem count_replaceFirst_self (o n : String) (l : List String) (hne : o ≠ n)
    (hmem : o ∈ l) : (replaceFirst o n l).count o + 1 = l.count o := by
  induction l with
  | nil => cases hmem
  | cons a t ih =>
    by_cases hao : a = o
    · subst hao
      simp only [replaceFirst, if_pos rfl, List.count_cons]
      simp [hne, Ne.symm hne]
    · have hmem' : o ∈ t := by
        rcases List.mem_cons.mp hmem with h | h
        · exact absurd h.symm hao
        · exact h
      simp only [replaceFirst, if_neg hao, List.count_cons, beq_iff_eq,
        if_neg (fun h : o = a => hao h.symm)]
      have := ih hmem'
      omega

theorem count_replaceFirst_new (o n : String) (l : List String) (hne : o ≠ n)
    (hmem : o ∈ l) : (replaceFirst o n l).count n = l.count n + 1 := by
  induction l with
  | nil => cases hmem
  | cons a t ih =>
    by_cases hao : a = o
    · subst hao
      simp only [replaceFirst, if_pos rfl, List.count_cons]
      simp [hne, Ne.symm hne]
    · have hmem' : o ∈ t := by
        rcases List.mem_cons.mp hmem with h | h
        · exact absurd h.symm hao
        · exact h
      simp only [replaceFirst, if_neg hao, List.count_cons, ih hmem']
      omega

theorem count_replaceFirst_other (o n s : String) (l : List String)
    (hso : s ≠ o) (hsn : s ≠ n) :
    (replaceFirst o n l).count s = l.count s := by
  induction l with
  | nil => rfl
  | cons a t ih =>
    by_cases hao : a = o
    · subst hao
      simp only [replaceFirst, if_pos rfl, List.count_cons, beq_iff_eq]
      simp [hso, hsn, Ne.symm hso, Ne.symm hsn]
    · simp only [replaceFirst, if_neg hao, List.count_cons, ih]

/-- C6: `changeTextureName(oldName, newName)` with distinct names, when
`oldName` is a key of the map and an entry of the mesh texture list,
rebinds the image to `newName`, removes `oldName` from the map, leaves
other keys alone, and overwrites the first list entry holding `oldName`
with `newName` (so with a single occurrence, `oldName` disappears from the
list and `newName` gains one occurrence); when the names are equal or
`oldName` is missing from either structure, the model is unchanged. -/
theorem C6_changeTextureName_spec (m : MeshModel) (oldName newName : String)
    (img : QImage) :
    (oldName ≠ newName → mapFind? oldName m.textures = some img →
      m.cm.textures.contains oldName = true → keysNodup m.textures →
      mapFind? newName (m.changeTextureName oldName newName).textures = some img ∧
      mapFind? oldName (m.changeTextureName oldName newName).textures = none ∧
      (∀ k : String, k ≠ oldName → k ≠ newName →
        mapFind? k (m.changeTextureName oldName newName).textures =
          mapFind? k m.textures) ∧
      (m.changeTextureName oldName newName).cm.textures =
        replaceFirst oldName newName m.cm.textures ∧
      (m.cm.textures.count oldName = 1 →
        (m.changeTextureName oldName newName).cm.textures.count oldName = 0 ∧
        (m.changeTextureName oldName newName).cm.textures.count newName =
          m.cm.textures.count newName + 1)) ∧
    (oldName = newName → m.changeTextureName oldName newName = m) ∧
    (mapFind? oldName m.textures = none → m.changeTextureName oldName newName = m) ∧
    (m.cm.textures.contains oldName = false →
      m.changeTextureName oldName newName = m) := by
  refine ⟨?_, ?_, ?_, ?_⟩
  · intro hne hfind hcont hnodup
    have hmem : oldName ∈ m.cm.textures := (contains_eq_true_iff_mem _ _).mp hcont
    simp only [MeshModel.changeTextureName, if_pos hne, hfind, hcont]
    refine ⟨?_, ?_, ?_, trivial, ?_⟩
    · rw [mapFind?_erase_ne _ _ _ (Ne.symm hne), mapFind?_insert_self]
    · exact mapFind?_erase_self _ _ (keys_insert_nodup _ _ _ hnodup)
    · intro k hko hkn
      rw [mapFind?_erase_ne _ _ _ hko, mapFind?_insert_ne _ _ _ _ hkn]
    · intro hcount
      constructor
      · have h := count_replaceFirst_self oldName newName m.cm.textures hne hmem
        omega
      · exact count_replaceFirst_new oldName newName m.cm.textures hne hmem
  · intro he
    simp [MeshModel.changeTextureName, he]
  · intro hnone
    by_cases hne : oldName ≠ newName
    · cases hcont : m.cm.textures.contains oldName <;>
        simp [MeshModel.changeTextureName, hne, hnone, hcont]
    · simp [MeshModel.changeTextureName, hne]
  · intro hcontf
    have hnotmem : oldName ∉ m.cm.textures := by
      intro hmem
      rw [(contains_eq_true_iff_mem _ _).mpr hmem] at hcontf
      cases hcontf
    by_cases hne : oldName ≠ newName
    · cases hfind : mapFind? oldName m.textures <;>
        simp [MeshModel.changeTextureName, hne, hcontf, hfind, hnotmem]
    · simp [MeshModel.changeTextureName, hne]

/-- C6 witness: renaming on a concrete model holding one texture. -/
theorem C6_changeTextureName_witness :
    mapFind? "b"
      (({ initModel with
          cm := { initModel.cm with textures := ["a"] }
          textures := [("a", QImage.img 3)] } : MeshModel).changeTextureName
        "a" "b").textures = some (QImage.img 3) ∧
    mapFind? "a"
      (({ initModel with
          cm := { initModel.cm with textures := ["a"] }
          textures := [("a", QImage.img 3)] } : MeshModel).changeTextureName
        "a" "b").textures = none ∧
    (({ initModel with
        cm := { initModel.cm with textures := ["a"] }
        textures := [("a", QImage.img 3)] } : MeshModel).changeTextureName
      "a" "b").cm.textures.count "a" = 0 := by
  obtain ⟨h1, _⟩ :=
    C6_changeTextureName_spec
      ({ initModel with
         cm := { initModel.cm with textures := ["a"] }
         textures := [("a", QImage.img 3)] } : MeshModel) "a" "b" (QImage.img 3)
  obtain ⟨g1, g2, g3, g4, g5⟩ :=
    h1 (by decide) (by decide) (by decide) (by simp [keysNodup])
  exact ⟨g1, g2, (g5 (by decide)).1⟩

/-- A model whose mesh texture list holds a duplicated name that is not a
key of the texture map; such lists are constructible because repeated
dummy-texture substitutions in `loadTextures` append equal names and
`changeTextureName` can later drop the name from the map. -/
def dupModel : MeshModel :=
  { initModel with cm := { initModel.cm with textures := ["t", "t"] } }

/-- C7 counterexample: with a duplicated list entry and the name absent
from the map, `addTexture` stores the binding but the name still appears
twice in the mesh texture list, not exactly once as claimed. -/
theorem C7_addTexture_counterexample :
    (mapFind? "t" dupModel.textures).isSome = false ∧
    (dupModel.addTexture "t" QImage.dummy).cm.textures.count "t" = 2 := by
  decide

/-- C7 (amended): if `name` is already a key, `addTexture` changes
nothing; otherwise the map gains the binding, other keys are untouched,
and `name` is appended to the mesh texture list only when absent, so its
occurrence count becomes `max(old, 1)` — exactly once provided it occurred
at most once before — and no other name's count changes. -/
theorem C7_addTexture_spec (m : MeshModel) (name : String) (txt : QImage) :
    ((mapFind? name m.textures).isSome = true → m.addTexture name txt = m) ∧
    ((mapFind? name m.textures).isSome = false →
      mapFind? name (m.addTexture name txt).textures = some txt ∧
      (∀ k : String, k ≠ name →
        mapFind? k (m.addTexture name txt).textures = mapFind? k m.textures) ∧
      (m.addTexture name txt).cm.textures.count name =
        max (m.cm.textures.count name) 1 ∧
      (m.cm.textures.count name ≤ 1 →
        (m.addTexture name txt).cm.textures.count name = 1) ∧
      (∀ s : String, s ≠ name →
        (m.addTexture name txt).cm.textures.count s = m.cm.textures.count s)) := by
  constructor
  · intro h
    cases hf : mapFind? name m.textures with
    | none => rw [hf] at h; cases h
    | some v => simp [MeshModel.addTexture, hf]
  · intro h
    cases hf : mapFind? name m.textures with
    | some v => rw [hf] at h; cases h
    | none =>
      have hcount :
          (m.addTexture name txt).cm.textures.count name =
            max (m.cm.textures.count name) 1 := by
        by_cases hc : m.cm.textures.contains name = true
        · have hmem : name ∈ m.cm.textures := (contains_eq_true_iff_mem _ _).mp hc
          have hpos : 0 < m.cm.textures.count name := List.count_pos_iff.mpr hmem
          simp [MeshModel.addTexture, hf, hmem]
        · have hnmem : name ∉ m.cm.textures := by
            intro hmem
            exact hc ((contains_eq_true_iff_mem _ _).mpr hmem)
          have hzero : m.cm.textures.count name = 0 :=
            List.count_eq_zero.mpr hnmem
          simp [MeshModel.addTexture, hf, hnmem, List.count_append, hzero]
      refine ⟨?_, ?_, hcount, ?_, ?_⟩
      · simp only [MeshModel.addTexture, hf, Option.isNone_none, if_pos rfl]
        exact mapFind?_insert_self _ _ _
      · intro k hk
        simp only [MeshModel.addTexture, hf, Option.isNone_none, if_pos rfl]
        exact mapFind?_insert_ne _ _ _ _ hk
      · intro hle
        rw [hcount]
        omega
      · intro s hs
        by_cases hc : m.cm.textures.contains name = true
        · have hmem : name ∈ m.cm.textures := (contains_eq_true_iff_mem _ _).mp hc
          simp [MeshModel.addTexture, hf, hmem]
        · have hnmem : name ∉ m.cm.textures := by
            intro hmem
            exact hc ((contains_eq_true_iff_mem _ _).mpr hmem)
          simp [MeshModel.addTexture, hf, hnmem, List.count_append,
            List.count_cons, hs, Ne.symm hs]

/-- C7 witness: the amended `addTexture` theorem applied at a model with
an empty texture list. -/
theorem C7_addTexture_witness :
    mapFind? "t" (initModel.addTexture "t" QImage.dummy).textures =
      some QImage.dummy ∧
    (initModel.addTexture "t" QImage.dummy).cm.textures.count "t" = 1 := by
  obtain ⟨_, h2⟩ := C7_addTexture_spec initModel "t" QImage.dummy
  obtain ⟨g1, g2, g3, g4, g5⟩ := h2 (by decide)
  exact ⟨g1, g4 (by decide)⟩

/-- C8: `getTexture(tn)` returns the stored image when `tn` is a key and
the default-constructed null image otherwise, as a pure total function;
`setTexture(name, txt)` replaces the stored image only when `name` is
already a key and is a complete no-op otherwise, never touching the mesh,
its texture list or any other field. -/
theorem C8_getTexture_setTexture (m : MeshModel) (tn name : String)
    (img txt : QImage) :
    (mapFind? tn m.textures = some img → m.getTexture tn = img) ∧
    (mapFind? tn m.textures = none → m.getTexture tn = QImage.nullImage) ∧
    ((mapFind? name m.textures).isSome = false → m.setTexture name txt = m) ∧
    ((mapFind? name m.textures).isSome = true →
      mapFind? name (m.setTexture name txt).textures = some txt ∧
      (∀ k : String, k ≠ name →
        mapFind? k (m.setTexture name txt).textures = mapFind? k m.textures) ∧
      (m.setTexture name txt).cm = m.cm ∧
      (m.setTexture name txt).currentDataMask = m.currentDataMask ∧
      (m.setTexture name txt).modified = m.modified ∧
      (m.setTexture name txt).visible = m.visible ∧
      (m.setTexture name txt).fullPathFileName = m.fullPathFileName) := by
  refine ⟨?_, ?_, ?_, ?_⟩
  · intro h
    simp [MeshModel.getTexture, h]
  · intro h
    simp [MeshModel.getTexture, h]
  · intro h
    simp [MeshModel.setTexture, h]
  · intro h
    simp only [MeshModel.setTexture, h, if_pos rfl]
    exact ⟨mapFind?_assign_self _ _ _ h,
      fun k hk => mapFind?_assign_ne _ _ _ _ hk, rfl, rfl, rfl, rfl, rfl⟩

/-- C8 witness: the query and update theorem applied at a model holding
one texture. -/
theorem C8_getTexture_setTexture_witness :
    ({ initModel with textures := [("a", QImage.img 1)] } : MeshModel).getTexture
      "a" = QImage.img 1 ∧
    ({ initModel with textures := [("a", QImage.img 1)] } : MeshModel).getTexture
      "b" = QImage.nullImage ∧
    (({ initModel with textures := [("a", QImage.img 1)] } : MeshModel).setTexture
      "b" QImage.dummy) =
      ({ initModel with textures := [("a", QImage.img 1)] } : MeshModel) ∧
    mapFind? "a"
      (({ initModel with
          textures := [("a", QImage.img 1)] } : MeshModel).setTexture "a"
        (QImage.img 2)).textures = some (QImage.img 2) := by
  obtain ⟨h1, h2, h3, h4⟩ :=
    C8_getTexture_setTexture
      ({ initModel with textures := [("a", QImage.img 1)] } : MeshModel)
      "a" "b" (QImage.img 1) QImage.dummy
  obtain ⟨g1, -⟩ :=
    (C8_getTexture_setTexture
      ({ initModel with textures := [("a", QImage.img 1)] } : MeshModel)
      "a" "a" (QImage.img 1) (QImage.img 2)).2.2.2 (by decide)
  exact ⟨h1 (by decide),
    (C8_getTexture_setTexture
      ({ initModel with textures := [("a", QImage.img 1)] } : MeshModel)
      "b" "b" (QImage.img 1) QImage.dummy).2.1 (by decide),
    h3 (by decide), g1⟩

theorem processTexture_some (env : TexEnv) (meshPath : String)
    (tmap : List (String × QImage)) (t name : String)
    (tmap' : List (String × QImage)) (y : String)
    (h : processTexture env meshPath tmap t = (name, tmap', some y)) :
    y = t ∧ env.loadImage (env.absoluteFilePath t) = none ∧
      env.loadImage (env.absolutePath meshPath ++ "/" ++ env.filePath t) = none := by
  unfold processTexture at h
  by_cases h1 : (mapFind? t tmap).isSome = true
  · rw [if_pos h1] at h
    simp at h
  · rw [if_neg h1] at h
    cases h2 : env.loadImage (env.absoluteFilePath t) with
    | some img =>
      rw [h2] at h
      simp at h
    | none =>
      rw [h2] at h
      cases h3 : env.loadImage (env.absolutePath meshPath ++ "/" ++ env.filePath t) with
      | some img =>
        rw [h3] at h
        simp at h
      | none =>
        rw [h3] at h
        simp only [Prod.mk.injEq, Option.some.injEq] at h
        exact ⟨h.2.2.symm, rfl, rfl⟩

theorem loadTexturesGo_unloaded_failed (env : TexEnv) (meshPath : String)
    (ts : List String) (tmap : List (String × QImage)) :
    ∀ x ∈ (loadTexturesGo env meshPath ts tmap).2.2,
      env.loadImage (env.absoluteFilePath x) = none ∧
      env.loadImage (env.absolutePath meshPath ++ "/" ++ env.filePath x) = none ∧
      x ∈ ts := by
  induction ts generalizing tmap with
  | nil => intro x hx; cases hx
  | cons t ts ih =>
    intro x hx
    simp only [loadTexturesGo] at hx
    rcases hp : processTexture env meshPath tmap t with ⟨nm, tmap', u⟩
    rw [hp] at hx
    cases u with
    | none =>
      rcases ih tmap' x hx with ⟨ha, hb, hc⟩
      exact ⟨ha, hb, List.mem_cons_of_mem _ hc⟩
    | some y =>
      rcases List.mem_cons.mp hx with hxy | hx'
      · subst hxy
        rcases processTexture_some env meshPath tmap t nm tmap' x hp with ⟨hy, ha, hb⟩
        subst hy
        exact ⟨ha, hb, List.mem_cons_self _ _⟩
      · rcases ih tmap' x hx' with ⟨ha, hb, hc⟩
        exact ⟨ha, hb, List.mem_cons_of_mem _ hc⟩

/-- C5: the two-level texture-load fallback.  Per loop iteration: a name
already in the map is skipped entirely; otherwise the absolute file path
is tried first, then the path formed from the model's own directory, and
only when both fail is the dummy image stored, the original name pushed
onto the unloaded list and the stored name replaced by `"dummy.png"`;
globally, every name in the returned list had both attempts fail (and the
step equations show exactly the both-failed names are pushed). -/
theorem C5_loadTextures_two_level (env : TexEnv) (meshPath : String)
    (tmap : List (String × QImage)) (textName : String) (img : QImage)
    (m : MeshModel) :
    ((mapFind? textName tmap).isSome = true →
      processTexture env meshPath tmap textName = (textName, tmap, none)) ∧
    ((mapFind? textName tmap).isSome = false →
      env.loadImage (env.absoluteFilePath textName) = some img →
      processTexture env meshPath tmap textName =
        (env.fileName textName,
         mapInsert (env.fileName textName) img tmap, none)) ∧
    ((mapFind? textName tmap).isSome = false →
      env.loadImage (env.absoluteFilePath textName) = none →
      env.loadImage (env.absolutePath meshPath ++ "/" ++ env.filePath textName) =
        some img →
      processTexture env meshPath tmap textName =
        (env.filePath textName,
         mapInsert (env.filePath textName) img tmap, none)) ∧
    ((mapFind? textName tmap).isSome = false →
      env.loadImage (env.absoluteFilePath textName) = none →
      env.loadImage (env.absolutePath meshPath ++ "/" ++ env.filePath textName) =
        none →
      processTexture env meshPath tmap textName =
        ("dummy.png", mapInsert "dummy.png" QImage.dummy tmap, some textName)) ∧
    (∀ x ∈ (m.loadTextures env).2,
      env.loadImage (env.absoluteFilePath x) = none ∧
      env.loadImage (env.absolutePath m.fullPathFileName ++ "/" ++
        env.filePath x) = none ∧
      x ∈ m.cm.textures) := by
  refine ⟨?_, ?_, ?_, ?_, ?_⟩
  · intro h1
    simp [processTexture, h1]
  · intro h1 h2
    simp [processTexture, h1, h2]
  · intro h1 h2 h3
    simp [processTexture, h1, h2, h3]
  · intro h1 h2 h3
    simp [processTexture, h1, h2, h3]
  · intro x hx
    simp only [MeshModel.loadTextures] at hx
    exact loadTexturesGo_unloaded_failed env m.fullPathFileName m.cm.textures
      m.textures x hx

/-- Environment for the `loadTextures` witness: `"A/a.png"` is the only
loadable path, all path functions are simple string operations. -/
def texEnv0 : TexEnv :=
  { loadImage := fun s => if s = "A/a.png" then some (QImage.img 1) else none
    absoluteFilePath := fun s => "A/" ++ s
    fileName := fun s => s
    filePath := fun s => s
    absolutePath := fun _ => "D" }

/-- Model for the `loadTextures` witness: one unloadable texture name. -/
def mTex : MeshModel :=
  { initModel with cm := { initModel.cm with textures := ["b.png"] } }

/-- C5 witness: the fallback theorem applied to a concrete environment —
a loadable name resolves on the first attempt, and the unloadable name of
the model is reported with both of its attempts failing. -/
theorem C5_loadTextures_witness :
    processTexture texEnv0 "p" [] "a.png" =
      ("a.png", [("a.png", QImage.img 1)], none) ∧
    texEnv0.loadImage (texEnv0.absoluteFilePath "b.png") = none ∧
    texEnv0.loadImage (texEnv0.absolutePath mTex.fullPathFileName ++ "/" ++
      texEnv0.filePath "b.png") = none ∧
    "b.png" ∈ mTex.cm.textures := by
  obtain ⟨c1, c2, c3, c4, c5⟩ :=
    C5_loadTextures_two_level texEnv0 "p" [] "a.png" (QImage.img 1) mTex
  have h1 := c2 (by decide) (by decide)
  have h2 := c5 "b.png" (by decide)
  exact ⟨h1, h2.1, h2.2.1, h2.2.2⟩

/-- C9 counterexample: the `io2mm` switch lists seventeen cases, not
eighteen as the claim counts. -/
theorem C9_io2mm_counterexample :
    ioListedCases.length = 17 ∧ ¬ioListedCases.length = 18 := by decide

/-- C9 (amended): `io2mm` is a total injective translation on the
seventeen listed case values (sixteen single IO bits plus `IOM_NONE`),
returning the matching MM value for each, and on those values the
`assert(0)` default branch is unreachable. -/
theorem C9_io2mm_translation :
    ioListedCases.map io2mm =
      [MM_NONE, MM_VERTCOORD, MM_VERTCOLOR, MM_VERTFLAG, MM_VERTQUALITY,
       MM_VERTNORMAL, MM_VERTTEXCOORD, MM_VERTRADIUS, MM_FACEVERT, MM_FACEFLAG,
       MM_FACECOLOR, MM_FACEQUALITY, MM_FACENORMAL, MM_WEDGTEXCOORD, MM_WEDGCOLOR,
       MM_WEDGNORMAL, MM_POLYGONAL] ∧
    (∀ x ∈ ioListedCases, ∀ y ∈ ioListedCases, io2mm x = io2mm y → x = y) ∧
    (∀ x ∈ ioListedCases, io2mmHitsDefault x = false) := by
  refine ⟨by decide, by decide, by decide⟩

/-- C9 witness: the translation theorem applied at concrete IO bits,
discharging the membership and equality hypotheses. -/
theorem C9_io2mm_witness :
    io2mmHitsDefault IOM_VERTCOLOR = false ∧ IOM_VERTCOORD = IOM_VERTCOORD :=
  ⟨C9_io2mm_translation.2.2 IOM_VERTCOLOR (by decide),
   C9_io2mm_translation.2.1 IOM_VERTCOORD (by decide) IOM_VERTCOORD (by decide) rfl⟩
